import Mathlib

/-!
A shallow embedding of the BanBot 3000 high-availability coordinator
(`main.py`) and of the in-memory moderation store (`bot.py`), together with
theorems about the sync protocol, the failover decision, the role state
machine, and the log-retention and warning-id lifecycle.

Timestamps are modelled as integers counting microseconds (the resolution of
the source `datetime` values); `total_seconds() > 60` becomes a comparison
against `60 * 1000000` microseconds.  Python dicts are modelled as association
lists in insertion order, and network I/O is modelled by passing the peer
response (or a transport-failure marker) as an explicit argument.
-/

namespace Banbot

/-- The `ActionType` enum, defined identically in `main.py` and `bot.py`. -/
inductive ActionType
  | BAN
  | KICK
  | TIMEOUT
  | WARN
  | DEOP
deriving DecidableEq, Repr

/-- The `.value` string of each `ActionType` member. -/
def ActionType.value : ActionType → String
  | .BAN => "ban"
  | .KICK => "kick"
  | .TIMEOUT => "timeout"
  | .WARN => "warn"
  | .DEOP => "deop"

/-- Stats dictionaries (`self.stats`) are string-keyed integer counters kept
in insertion order.  The `start_time` / `uptime_start` datetime entry is
modelled separately from the integer counters. -/
abbrev Stats := List (String × Int)

/-- Dictionary read with default 0, as in `self.stats.get(key, 0)`. -/
def statsGet (s : Stats) (k : String) : Int :=
  match s.find? (fun p => p.1 == k) with
  | some p => p.2
  | none => 0

/-- Dictionary write `d[k] = v`: replace in place when the key exists,
append at the end otherwise (Python dict insertion-order semantics). -/
def statsSet (s : Stats) (k : String) (v : Int) : Stats :=
  if (s.find? (fun p => p.1 == k)).isSome then
    s.map (fun p => if p.1 == k then (p.1, v) else p)
  else s ++ [(k, v)]

/-- `d.update(u)` on Python dicts: write every pair of `u` into `d`. -/
def statsUpdate (s : Stats) (u : Stats) : Stats :=
  u.foldl (fun acc p => statsSet acc p.1 p.2) s

/-- First-match lookup in an association list, i.e. Python `d[k]` /
`k in d` on a dict modelled in insertion order. -/
def lookup {α : Type} (l : List (String × α)) (k : String) : Option α :=
  (l.find? (fun p => p.1 == k)).map (fun p => p.2)

namespace Main

/-- `BotRole` from `main.py`: fixed at process start. -/
inductive BotRole
  | PRIMARY
  | SECONDARY
deriving DecidableEq, Repr

/-- The `ModerationAction` dataclass of `main.py`. -/
structure ModerationAction where
  user_id : Int
  moderator_id : Int
  action : ActionType
  reason : String
  timestamp : Int
  duration : Option Int := none
deriving DecidableEq, Repr

/-- The `Warning` dataclass of `main.py`. -/
structure Warning where
  id : Nat
  user_id : Int
  moderator_id : Int
  reason : String
  timestamp : Int
deriving DecidableEq, Repr

/-- The `DeoppedUser` dataclass of `main.py`. -/
structure DeoppedUser where
  user_id : Int
  deopped_by : Int
  timestamp : Int
  reason : String
deriving DecidableEq, Repr

/-- The `CustomCommand` dataclass of `main.py`. -/
structure CustomCommand where
  name : String
  description : String
  response : String
  created_by : Int
  created_at : Int
  usage_count : Nat := 0
deriving DecidableEq, Repr

/-- The mutable state of a `BanBot3000HA` instance (`main.py`,
`BanBot3000HA.__init__`): role, activity flag, the in-memory stores, the
warning-id counter and the stats counters.  `registered_commands` models the
discord command table that `add_dynamic_command` inserts into, and
`presence_updates` records each `change_presence` side effect of the
`become_active` / `become_standby` transitions. -/
structure BotState where
  role : BotRole
  is_active_instance : Bool
  moderation_actions : List ModerationAction
  deopped_users : List (Int × DeoppedUser)
  warnings : List Warning
  custom_commands : List (String × CustomCommand)
  registered_commands : List String
  next_warning_id : Nat
  stats : Stats
  presence_updates : List Bool
deriving DecidableEq, Repr

/-- The integer counters of `self.stats` at construction
(`BanBot3000HA.__init__`). -/
def initStats : Stats :=
  [("bans", 0), ("kicks", 0), ("timeouts", 0), ("warnings", 0), ("deops", 0),
   ("commands_used", 0), ("custom_commands_used", 0)]

/-- A freshly constructed `BanBot3000HA`: activity is ACTIVE iff the role is
PRIMARY, all stores empty, `next_warning_id = 1`. -/
def initState (role : BotRole) : BotState :=
  { role := role
    is_active_instance := role == BotRole.PRIMARY
    moderation_actions := []
    deopped_users := []
    warnings := []
    custom_commands := []
    registered_commands := []
    next_warning_id := 1
    stats := initStats
    presence_updates := [] }

/-- `BanBot3000HA.become_active`: no-op when already active, otherwise set
the flag and issue a presence update (recorded as `true`). -/
def become_active (bot : BotState) : BotState :=
  if bot.is_active_instance then bot
  else { bot with is_active_instance := true
                  presence_updates := bot.presence_updates ++ [true] }

/-- `BanBot3000HA.become_standby`: no-op when already standby, otherwise
clear the flag and issue a presence update (recorded as `false`). -/
def become_standby (bot : BotState) : BotState :=
  if !bot.is_active_instance then bot
  else { bot with is_active_instance := false
                  presence_updates := bot.presence_updates ++ [false] }

/-- `BanBot3000HA.log_action`: stamp the action with the current time,
append it, bump the per-kind stats counter, and truncate the log to the last
250 entries once its length exceeds 500. -/
def log_action (bot : BotState) (a : ModerationAction) (now : Int) : BotState :=
  let a2 := { a with timestamp := now }
  let key := a.action.value ++ "s"
  let stats2 := statsSet bot.stats key (statsGet bot.stats key + 1)
  let acts := bot.moderation_actions ++ [a2]
  let acts2 := if acts.length > 500 then acts.drop (acts.length - 250) else acts
  { bot with moderation_actions := acts2, stats := stats2 }

/-- `BanBot3000HA.add_warning`: issue the next warning id, append the
warning, advance the counter, bump the stats counter. -/
def add_warning (bot : BotState) (user_id moderator_id : Int) (reason : String)
    (now : Int) : BotState × Warning :=
  let w : Warning :=
    { id := bot.next_warning_id, user_id := user_id, moderator_id := moderator_id
      reason := reason, timestamp := now }
  ({ bot with warnings := bot.warnings ++ [w]
              next_warning_id := bot.next_warning_id + 1
              stats := statsSet bot.stats "warnings" (statsGet bot.stats "warnings" + 1) },
   w)

/-- A sequence of `add_warning` calls (user, moderator, reason, time),
returning the final state and the list of issued warning ids in order. -/
def addMany : BotState → List (Int × Int × String × Int) → BotState × List Nat
  | bot, [] => (bot, [])
  | bot, (u, m, r, t) :: rest =>
    let step := add_warning bot u m r t
    let next := addMany step.1 rest
    (next.1, step.2.id :: next.2)

/-- The `HealthMonitor` state of `main.py`: the peer base url (if any), the
initialized-session flag, and `last_peer_heartbeat`. -/
structure HealthMonitor where
  peer_url : Option String
  session : Bool
  last_peer_heartbeat : Int
deriving DecidableEq, Repr

/-- The `last_heartbeat` field of a peer `/health` body: missing from the
JSON, present but not ISO-8601-parseable, or parsed to a timestamp. -/
inductive LHField
  | missing
  | unparseable
  | parsed (t : Int)
deriving DecidableEq, Repr

/-- A parsed peer `/health` JSON body as read by `check_peer_health`. -/
structure HealthData where
  last_heartbeat : LHField
  is_active : Option Bool
deriving DecidableEq, Repr

/-- One round of talking to the `/health` endpoint of the peer: either the
request raised (connection error, timeout) or an HTTP response arrived with
a status code and a body (`none` when the body is not valid JSON). -/
inductive PeerResponse
  | transportError
  | httpResponse (status : Nat) (body : Option HealthData)
deriving DecidableEq, Repr

/-- `HealthMonitor.check_peer_health`: guard on `peer_url` and `session`,
then on a 200 response with a parseable `last_heartbeat` update the
heartbeat and return the reported `is_active` (default `False`); every other
outcome is absorbed by the bare `except` and returns `False` with the
monitor unchanged. -/
def check_peer_health (m : HealthMonitor) (resp : PeerResponse) :
    HealthMonitor × Bool :=
  if m.peer_url.isNone || !m.session then (m, false)
  else
    match resp with
    | .transportError => (m, false)
    | .httpResponse status body =>
      if status == 200 then
        match body with
        | none => (m, false)
        | some hd =>
          match hd.last_heartbeat with
          | .missing => (m, false)
          | .unparseable => (m, false)
          | .parsed t => ({ m with last_peer_heartbeat := t }, hd.is_active.getD false)
      else (m, false)

/-- The fixed grace period of `should_takeover`, in microseconds:
`total_seconds() > 60`. -/
def graceMicros : Int := 60 * 1000000

/-- `HealthMonitor.should_takeover`: `False` for a PRIMARY instance,
otherwise true exactly when the elapsed time since `last_peer_heartbeat`
strictly exceeds the 60-second grace period.  Reads `self.instance.role` and
`self.last_peer_heartbeat`; no other instance field is consulted. -/
def should_takeover (m : HealthMonitor) (bot : BotState) (now : Int) : Bool :=
  if bot.role == BotRole.PRIMARY then false
  else decide (now - m.last_peer_heartbeat > graceMicros)

/-- One custom-command entry of a `/sync` payload as the ingest handler
reads it: each field is `none` when the key is missing from the JSON object
(`created_at` also when the string is not parseable by `fromisoformat`).
`usage_count` is read with `.get("usage_count", 0)`. -/
structure CmdData where
  name : Option String
  description : Option String
  response : Option String
  created_by : Option Int
  created_at : Option Int
  usage_count : Option Nat
deriving DecidableEq, Repr

/-- The `stats` field of a `/sync` payload: absent (`data.get("stats", ...)`
yields an empty update), a well-formed counter object, or a value on which
`dict.update` raises part-way.  CPython `dict.update` on a non-mapping
iterates it as a sequence of key/value pairs, inserting them one at a time,
so when an element raises, the pairs before it are already inserted; the
malformed case therefore carries the pairs applied before the failure
(possibly none, e.g. for a plain integer value). -/
inductive StatsField
  | absent
  | valid (s : Stats)
  | malformed (applied : Stats)
deriving DecidableEq, Repr

/-- A parsed `/sync` JSON payload.  The ingest handler only reads
`custom_commands` and `stats`; the remaining fields are carried but
ignored on ingest. -/
structure SyncPayload where
  actions : Option (List ModerationAction)
  warnings : Option (List Warning)
  deopped : Option (List (String × DeoppedUser))
  custom_commands : Option (List (String × CmdData))
  stats : StatsField
  timestamp : Option Int
deriving DecidableEq, Repr

/-- `CustomCommand.to_dict` as used when building an outbound snapshot:
every field is present. -/
def cmdToDict (c : CustomCommand) : CmdData :=
  { name := some c.name, description := some c.description
    response := some c.response, created_by := some c.created_by
    created_at := some c.created_at, usage_count := some c.usage_count }

/-- The snapshot built by `HealthMonitor.sync_data` before POSTing to the
`/sync` endpoint of the peer: the last 100 actions, the last 50 warnings, the full
deopped map, the full custom-command map, a copy of the stats, and the
current time. -/
def build_sync_payload (bot : BotState) (now : Int) : SyncPayload :=
  { actions := some (bot.moderation_actions.drop (bot.moderation_actions.length - 100))
    warnings := some (bot.warnings.drop (bot.warnings.length - 50))
    deopped := some (bot.deopped_users.map (fun p => (toString p.1, p.2)))
    custom_commands := some (bot.custom_commands.map (fun p => (p.1, cmdToDict p.2)))
    stats := StatsField.valid bot.stats
    timestamp := some now }

/-- Constructing a `CustomCommand` from one payload entry
(`HTTPServer.sync_data`): any missing required field (or unparseable
`created_at`) raises, modelled as `none`; `usage_count` defaults to 0. -/
def buildCmd (d : CmdData) : Option CustomCommand :=
  match d.name, d.description, d.response, d.created_by, d.created_at with
  | some n, some ds, some r, some cb, some ca =>
    some { name := n, description := ds, response := r, created_by := cb
           created_at := ca, usage_count := d.usage_count.getD 0 }
  | _, _, _, _, _ => none

/-- The `for name, cmd_data in ... .items()` loop of
`HTTPServer.sync_data`: skip names already present, otherwise construct the
command, store it and register it; a malformed entry raises, which stops the
loop with the insertions made so far kept (returned flag `false`). -/
def mergeCommands : BotState → List (String × CmdData) → BotState × Bool
  | bot, [] => (bot, true)
  | bot, (name, d) :: rest =>
    if (lookup bot.custom_commands name).isSome then
      mergeCommands bot rest
    else
      match buildCmd d with
      | none => (bot, false)
      | some cmd =>
        mergeCommands
          { bot with custom_commands := bot.custom_commands ++ [(name, cmd)]
                     registered_commands := bot.registered_commands ++ [cmd.name] }
          rest

/-- The status strings returned by the `/sync` ingest handler. -/
inductive SyncStatus
  | active_skip
  | success
  | error
deriving DecidableEq, Repr

/-- The stats-update step of the ingest handler, followed by the handler
answer: a missing field updates nothing, a well-formed object overrides the
local counters, and a value on which `dict.update` raises has already
inserted its leading pairs when the exception is caught — the partial
override is kept and the error status returned. -/
def applyStats (bot : BotState) (sf : StatsField) : BotState × SyncStatus :=
  match sf with
  | .absent => (bot, .success)
  | .valid s => ({ bot with stats := statsUpdate bot.stats s }, .success)
  | .malformed applied => ({ bot with stats := statsUpdate bot.stats applied }, .error)

/-- `HTTPServer.sync_data`, the `/sync` ingest handler: an ACTIVE instance
answers `active_skip` before reading the body; otherwise an unparseable body
raises immediately (error, nothing touched); otherwise the custom commands
are merged, then the stats override is applied; an exception at any point is
caught and answered as the error status with all mutations made so far
kept. -/
def sync_data (bot : BotState) (body : Option SyncPayload) : BotState × SyncStatus :=
  if bot.is_active_instance then (bot, .active_skip)
  else
    match body with
    | none => (bot, .error)
    | some data =>
      match data.custom_commands with
      | none => applyStats bot data.stats
      | some entries =>
        match mergeCommands bot entries with
        | (bot1, true) => applyStats bot1 data.stats
        | (bot1, false) => (bot1, .error)

/-- Labels for the three steps of one `health_loop` iteration. -/
inductive HStep
  | takeoverDecision
  | syncPush
  | peerHealthCheck
deriving DecidableEq, Repr

/-- One iteration of `BanBot3000HA.health_loop` (the recurring 30-second
task), with the executed steps recorded in program order: first the takeover
decision (`become_active` when the role is SECONDARY and `should_takeover`
holds), then the outbound sync push (`HealthMonitor.sync_data`, which builds
a snapshot and mutates no local store), then `check_peer_health`. -/
def health_loop (bot : BotState) (m : HealthMonitor) (now : Int)
    (resp : PeerResponse) : BotState × HealthMonitor × List HStep :=
  let bot1 :=
    if bot.role == BotRole.SECONDARY && should_takeover m bot now then
      become_active bot
    else bot
  let trace1 := [HStep.takeoverDecision]
  let _snapshot := build_sync_payload bot1 now
  let trace2 := trace1 ++ [HStep.syncPush]
  let m2 := (check_peer_health m resp).1
  let trace3 := trace2 ++ [HStep.peerHealthCheck]
  (bot1, m2, trace3)

/-- The two activity transitions of the role coordinator. -/
inductive RCall
  | active
  | standby
deriving DecidableEq, Repr

/-- Dispatch one transition call. -/
def applyCall (bot : BotState) : RCall → BotState
  | .active => become_active bot
  | .standby => become_standby bot

/-- Run a sequence of `become_active` / `become_standby` calls. -/
def runCalls (bot : BotState) (calls : List RCall) : BotState :=
  calls.foldl applyCall bot

/-- The activity value a call requests. -/
def reqActive : RCall → Bool
  | .active => true
  | .standby => false

/-- Whether a peer response is a 200 answer with a parseable
`last_heartbeat` field. -/
def respGood : PeerResponse → Bool
  | .httpResponse status (some hd) =>
    status == 200 &&
      (match hd.last_heartbeat with
       | .parsed _ => true
       | _ => false)
  | _ => false

end Main

namespace BotPy

/-- The `ModerationAction` dataclass of `bot.py` (adds an `active` flag). -/
structure ModerationAction where
  user_id : Int
  moderator_id : Int
  action : ActionType
  reason : String
  timestamp : Int
  duration : Option Int := none
  active : Bool := true
deriving DecidableEq, Repr

/-- The `Warning` dataclass of `bot.py` (adds an `active` flag). -/
structure Warning where
  id : Nat
  user_id : Int
  moderator_id : Int
  reason : String
  timestamp : Int
  active : Bool := true
deriving DecidableEq, Repr

/-- The `DeoppedUser` dataclass of `bot.py`. -/
structure DeoppedUser where
  user_id : Int
  deopped_by : Int
  timestamp : Int
  reason : String
deriving DecidableEq, Repr

/-- The mutable state of a `BanBot3000` instance (`bot.py`,
`BanBot3000.__init__`): the stores, the two id counters and the stats
counters.  The `uptime_start` datetime of the stats dict is modelled as a
separate field beside the integer counters. -/
structure State where
  moderation_actions : List ModerationAction
  deopped_users : List (Int × DeoppedUser)
  warnings : List Warning
  processed_messages : List Int
  user_message_times : List (Int × List Int)
  next_warning_id : Nat
  next_action_id : Nat
  stats : Stats
  uptime_start : Int
deriving DecidableEq, Repr

/-- The integer counters of `self.stats` at construction
(`BanBot3000.__init__`), also the value `clear_memory` resets them to. -/
def initStats : Stats :=
  [("bans", 0), ("kicks", 0), ("timeouts", 0), ("warnings", 0), ("deops", 0),
   ("commands_used", 0)]

/-- A freshly constructed `BanBot3000`: all stores empty, both counters 1. -/
def initState (start : Int) : State :=
  { moderation_actions := []
    deopped_users := []
    warnings := []
    processed_messages := []
    user_message_times := []
    next_warning_id := 1
    next_action_id := 1
    stats := initStats
    uptime_start := start }

/-- `BanBot3000.log_action`: stamp and append the action, bump the stats
counter only when its key already exists, and truncate the log to the last
5000 entries once its length exceeds 10000. -/
def log_action (st : State) (a : ModerationAction) (now : Int) : State :=
  let a2 := { a with timestamp := now }
  let key := a.action.value ++ "s"
  let stats2 :=
    if (st.stats.find? (fun p => p.1 == key)).isSome then
      statsSet st.stats key (statsGet st.stats key + 1)
    else st.stats
  let acts := st.moderation_actions ++ [a2]
  let acts2 := if acts.length > 10000 then acts.drop (acts.length - 5000) else acts
  { st with moderation_actions := acts2, stats := stats2 }

/-- `BanBot3000.add_warning`: issue the next warning id, append the
warning, advance the counter, bump the stats counter. -/
def add_warning (st : State) (user_id moderator_id : Int) (reason : String)
    (now : Int) : State × Warning :=
  let w : Warning :=
    { id := st.next_warning_id, user_id := user_id, moderator_id := moderator_id
      reason := reason, timestamp := now, active := true }
  ({ st with warnings := st.warnings ++ [w]
             next_warning_id := st.next_warning_id + 1
             stats := statsSet st.stats "warnings" (statsGet st.stats "warnings" + 1) },
   w)

/-- The store-clearing effect of the `clear_memory` admin command
(`bot.py`): empty every store, reset both id counters to 1, and reset the
stats counters while keeping `uptime_start`. -/
def clear_memory (st : State) : State :=
  { st with moderation_actions := []
            warnings := []
            deopped_users := []
            processed_messages := []
            user_message_times := []
            next_warning_id := 1
            next_action_id := 1
            stats := initStats }

end BotPy

/-! Helper lemmas about association-list lookup and the merge loop. -/

theorem lookup_nil {α : Type} (k : String) : lookup ([] : List (String × α)) k = none := rfl

theorem lookup_cons {α : Type} (a : String) (b : α) (t : List (String × α)) (k : String) :
    lookup ((a, b) :: t) k = if a == k then some b else lookup t k := by
  by_cases h : a == k
  · simp [lookup, List.find?, h]
  · simp only [lookup, List.find?]
    rw [if_neg h]
    simp [h]

theorem lookup_append_left {α : Type} (l1 l2 : List (String × α)) (k : String) (c : α)
    (h : lookup l1 k = some c) : lookup (l1 ++ l2) k = some c := by
  induction l1 with
  | nil => simp [lookup_nil] at h
  | cons p t ih =>
    obtain ⟨a, b⟩ := p
    rw [lookup_cons] at h
    rw [List.cons_append, lookup_cons]
    by_cases hak : a == k
    · rwa [if_pos hak] at h ⊢
    · rw [if_neg hak] at h ⊢
      exact ih h

theorem lookup_append_none {α : Type} (l1 l2 : List (String × α)) (k : String)
    (h : lookup l1 k = none) : lookup (l1 ++ l2) k = lookup l2 k := by
  induction l1 with
  | nil => simp
  | cons p t ih =>
    obtain ⟨a, b⟩ := p
    rw [lookup_cons] at h
    rw [List.cons_append, lookup_cons]
    by_cases hak : a == k
    · rw [if_pos hak] at h
      exact absurd h (by simp)
    · rw [if_neg hak] at h ⊢
      exact ih h

namespace Main

theorem mergeCommands_frame (l : List (String × CmdData)) (bot : BotState) :
    (mergeCommands bot l).1.role = bot.role ∧
    (mergeCommands bot l).1.is_active_instance = bot.is_active_instance ∧
    (mergeCommands bot l).1.moderation_actions = bot.moderation_actions ∧
    (mergeCommands bot l).1.deopped_users = bot.deopped_users ∧
    (mergeCommands bot l).1.warnings = bot.warnings ∧
    (mergeCommands bot l).1.next_warning_id = bot.next_warning_id ∧
    (mergeCommands bot l).1.stats = bot.stats ∧
    (mergeCommands bot l).1.presence_updates = bot.presence_updates := by
  induction l generalizing bot with
  | nil => simp [mergeCommands]
  | cons p rest ih =>
    obtain ⟨k, d⟩ := p
    rw [mergeCommands]
    by_cases hk : (lookup bot.custom_commands k).isSome
    · rw [if_pos hk]
      exact ih bot
    · rw [if_neg hk]
      cases hb : buildCmd d with
      | none => simp
      | some c => exact ih _

theorem mergeCommands_cc_append (l : List (String × CmdData)) (bot : BotState) :
    ∃ extra, (mergeCommands bot l).1.custom_commands = bot.custom_commands ++ extra := by
  induction l generalizing bot with
  | nil => exact ⟨[], by simp [mergeCommands]⟩
  | cons p rest ih =>
    obtain ⟨k, d⟩ := p
    rw [mergeCommands]
    by_cases hk : (lookup bot.custom_commands k).isSome
    · rw [if_pos hk]
      exact ih bot
    · rw [if_neg hk]
      cases hb : buildCmd d with
      | none => exact ⟨[], by simp⟩
      | some c =>
        obtain ⟨e, he⟩ := ih
          { bot with custom_commands := bot.custom_commands ++ [(k, c)]
                     registered_commands := bot.registered_commands ++ [c.name] }
        exact ⟨(k, c) :: e, by rw [he]; simp⟩

theorem mergeCommands_reg_append (l : List (String × CmdData)) (bot : BotState) :
    ∃ extra, (mergeCommands bot l).1.registered_commands =
      bot.registered_commands ++ extra := by
  induction l generalizing bot with
  | nil => exact ⟨[], by simp [mergeCommands]⟩
  | cons p rest ih =>
    obtain ⟨k, d⟩ := p
    rw [mergeCommands]
    by_cases hk : (lookup bot.custom_commands k).isSome
    · rw [if_pos hk]
      exact ih bot
    · rw [if_neg hk]
      cases hb : buildCmd d with
      | none => exact ⟨[], by simp⟩
      | some c =>
        obtain ⟨e, he⟩ := ih
          { bot with custom_commands := bot.custom_commands ++ [(k, c)]
                     registered_commands := bot.registered_commands ++ [c.name] }
        exact ⟨c.name :: e, by rw [he]; simp⟩

theorem mergeCommands_lookup_some (l : List (String × CmdData)) (bot : BotState)
    (k : String) (c : CustomCommand) (h : lookup bot.custom_commands k = some c) :
    lookup (mergeCommands bot l).1.custom_commands k = some c := by
  obtain ⟨e, he⟩ := mergeCommands_cc_append l bot
  rw [he]
  exact lookup_append_left _ _ _ _ h

theorem mergeCommands_reg_mem (l : List (String × CmdData)) (bot : BotState)
    (x : String) (h : x ∈ bot.registered_commands) :
    x ∈ (mergeCommands bot l).1.registered_commands := by
  obtain ⟨e, he⟩ := mergeCommands_reg_append l bot
  rw [he]
  exact List.mem_append_left _ h

theorem mergeCommands_insert (l : List (String × CmdData)) (bot : BotState)
    (k : String) (d : CmdData) (c : CustomCommand)
    (hmem : (k, d) ∈ l)
    (hwf : ∀ q ∈ l, (buildCmd q.2).isSome = true)
    (hnd : (l.map Prod.fst).Nodup)
    (habs : lookup bot.custom_commands k = none)
    (hc : buildCmd d = some c) :
    lookup (mergeCommands bot l).1.custom_commands k = some c ∧
    c.name ∈ (mergeCommands bot l).1.registered_commands := by
  induction l generalizing bot with
  | nil => simp at hmem
  | cons p rest ih =>
    obtain ⟨k1, d1⟩ := p
    rw [List.map_cons, List.nodup_cons] at hnd
    rcases List.mem_cons.mp hmem with heq | hmem1
    · rw [Prod.ext_iff] at heq
      obtain ⟨h1, h2⟩ := heq
      simp only at h1 h2
      subst h1
      subst h2
      rw [mergeCommands, if_neg (by simp [habs]), hc]
      have hl : lookup (bot.custom_commands ++ [(k, c)]) k = some c := by
        rw [lookup_append_none _ _ _ habs, lookup_cons]
        simp
      exact ⟨mergeCommands_lookup_some rest _ k c hl,
             mergeCommands_reg_mem rest _ c.name (by simp)⟩
    · have hk1k : k1 ≠ k := by
        intro hkk
        exact hnd.1 (hkk ▸ (List.mem_map.mpr ⟨(k, d), hmem1, rfl⟩))
      have hb1 : (buildCmd d1).isSome = true := hwf (k1, d1) (List.mem_cons_self _ _)
      rw [mergeCommands]
      by_cases hk : (lookup bot.custom_commands k1).isSome
      · rw [if_pos hk]
        exact ih _ hmem1 (fun q hq => hwf q (List.mem_cons_of_mem _ hq)) hnd.2 habs
      · rw [if_neg hk]
        cases hb : buildCmd d1 with
        | none => rw [hb] at hb1; simp at hb1
        | some c1 =>
          refine ih _ hmem1 (fun q hq => hwf q (List.mem_cons_of_mem _ hq)) hnd.2 ?_
          have hnone : lookup (bot.custom_commands ++ [(k1, c1)]) k = none := by
            rw [lookup_append_none _ _ _ habs, lookup_cons, if_neg (by simp [hk1k]),
              lookup_nil]
          exact hnone

theorem become_active_flag (b : BotState) :
    (become_active b).is_active_instance = true := by
  rw [become_active]
  by_cases h : b.is_active_instance
  · rw [if_pos h]
    exact h
  · rw [if_neg h]

theorem become_standby_flag (b : BotState) :
    (become_standby b).is_active_instance = false := by
  rw [become_standby]
  by_cases h : b.is_active_instance
  · rw [if_neg (by simp [h])]
  · rw [if_pos (by simp [h])]
    simp at h
    exact h

theorem applyCall_flag (b : BotState) (c : RCall) :
    (applyCall b c).is_active_instance = reqActive c := by
  cases c
  · exact become_active_flag b
  · exact become_standby_flag b

theorem check_peer_health_not_good (m : HealthMonitor) (resp : PeerResponse)
    (h : respGood resp = false) : check_peer_health m resp = (m, false) := by
  rw [check_peer_health.eq_def]
  by_cases hg : m.peer_url.isNone || !m.session
  · rw [if_pos hg]
  · rw [if_neg hg]
    cases resp with
    | transportError => rfl
    | httpResponse status body =>
      dsimp only
      by_cases hs : (status == 200) = true
      · rw [if_pos hs]
        cases body with
        | none => rfl
        | some hd =>
          dsimp only
          cases hlh : hd.last_heartbeat with
          | missing => rfl
          | unparseable => rfl
          | parsed t => simp [respGood, hs, hlh] at h
      · rw [if_neg hs]

end Main

end Banbot

namespace Banbot

/-- C1 (amended): `should_takeover()` returns true if and only if the
role of the instance is SECONDARY and the elapsed time since
`last_peer_heartbeat` strictly exceeds 60 seconds — the activity flag is not
consulted; in particular it returns false for every PRIMARY instance
regardless of heartbeat age. -/
theorem claim_C1 (m : Main.HealthMonitor) (bot : Main.BotState) (now : Int) :
    Main.should_takeover m bot now = true ↔
      (bot.role = Main.BotRole.SECONDARY ∧
        now - m.last_peer_heartbeat > Main.graceMicros) := by
  cases hr : bot.role <;> simp [Main.should_takeover, hr]

def c1m : Main.HealthMonitor :=
  { peer_url := none, session := false, last_peer_heartbeat := 0 }

def c1bot : Main.BotState :=
  { Main.initState Main.BotRole.SECONDARY with is_active_instance := true }

/-- C1 counterexample: a SECONDARY instance that is already ACTIVE
(`is_active_instance = true`) with a heartbeat 61 seconds old still gets
`should_takeover = true`, refuting the claimed equivalence that also
requires the activity flag to be STANDBY. -/
theorem claim_C1_counterexample :
    ¬ (Main.should_takeover c1m c1bot 61000000 = true ↔
        (c1bot.role = Main.BotRole.SECONDARY ∧ c1bot.is_active_instance = false ∧
          61000000 - c1m.last_peer_heartbeat > Main.graceMicros)) := by
  decide

/-- C2: a POST `/sync` received while the instance is ACTIVE returns the
`active_skip` status and leaves the entire state — hence every store —
unchanged, for any payload. -/
theorem claim_C2 (st : Main.BotState) (body : Option Main.SyncPayload)
    (h : st.is_active_instance = true) :
    Main.sync_data st body = (st, Main.SyncStatus.active_skip) := by
  simp [Main.sync_data, h]

def c2St : Main.BotState := Main.initState Main.BotRole.PRIMARY

def c2Payload : Main.SyncPayload :=
  { actions := some [], warnings := some [], deopped := some []
    custom_commands := some [("hello",
      { name := some "hello", description := some "d", response := some "r"
        created_by := some 1, created_at := some 0, usage_count := some 0 })]
    stats := Main.StatsField.valid [("bans", 3)], timestamp := some 0 }

/-- C2 witness: a fresh PRIMARY (hence ACTIVE) instance skips a concrete
well-formed payload. -/
theorem claim_C2_witness :
    Main.sync_data c2St (some c2Payload) = (c2St, Main.SyncStatus.active_skip) :=
  claim_C2 c2St (some c2Payload) (by decide)

theorem sync_data_standby (st : Main.BotState) (data : Main.SyncPayload)
    (ha : st.is_active_instance = false) :
    Main.sync_data st (some data) =
      match data.custom_commands with
      | none => Main.applyStats st data.stats
      | some entries =>
        match Main.mergeCommands st entries with
        | (bot1, true) => Main.applyStats bot1 data.stats
        | (bot1, false) => (bot1, Main.SyncStatus.error) := by
  unfold Main.sync_data
  rw [ha]
  simp

theorem applyStats_frame (b1 : Main.BotState) (sf : Main.StatsField) :
    (Main.applyStats b1 sf).1.moderation_actions = b1.moderation_actions ∧
    (Main.applyStats b1 sf).1.warnings = b1.warnings ∧
    (Main.applyStats b1 sf).1.deopped_users = b1.deopped_users ∧
    (Main.applyStats b1 sf).1.custom_commands = b1.custom_commands := by
  cases sf <;> simp [Main.applyStats]

theorem sync_data_frame (st : Main.BotState) (body : Option Main.SyncPayload) :
    (Main.sync_data st body).1.moderation_actions = st.moderation_actions ∧
    (Main.sync_data st body).1.warnings = st.warnings ∧
    (Main.sync_data st body).1.deopped_users = st.deopped_users ∧
    ∃ extra, (Main.sync_data st body).1.custom_commands = st.custom_commands ++ extra := by
  by_cases ha : st.is_active_instance = true
  · refine ⟨?_, ?_, ?_, ⟨[], ?_⟩⟩ <;> simp [Main.sync_data, ha]
  · have ha' : st.is_active_instance = false := by simpa using ha
    cases body with
    | none => refine ⟨?_, ?_, ?_, ⟨[], ?_⟩⟩ <;> simp [Main.sync_data, ha']
    | some data =>
      rw [sync_data_standby st data ha']
      cases hcc : data.custom_commands with
      | none =>
        dsimp only
        obtain ⟨k1, k2, k3, k4⟩ := applyStats_frame st data.stats
        exact ⟨k1, k2, k3, ⟨[], by rw [k4, List.append_nil]⟩⟩
      | some entries =>
        dsimp only
        cases hm : Main.mergeCommands st entries with
        | mk bot1 ok =>
          have hfr := Main.mergeCommands_frame entries st
          have hcc2 := Main.mergeCommands_cc_append entries st
          rw [hm] at hfr hcc2
          cases ok
          · dsimp only
            exact ⟨hfr.2.2.1, hfr.2.2.2.2.1, hfr.2.2.2.1, hcc2⟩
          · dsimp only
            obtain ⟨k1, k2, k3, k4⟩ := applyStats_frame bot1 data.stats
            obtain ⟨e, he⟩ := hcc2
            exact ⟨k1.trans hfr.2.2.1, k2.trans hfr.2.2.2.2.1,
                   k3.trans hfr.2.2.2.1, ⟨e, k4.trans he⟩⟩

theorem sync_data_stats_update (st : Main.BotState) (body : Option Main.SyncPayload) :
    ∃ u, (Main.sync_data st body).1.stats = statsUpdate st.stats u := by
  by_cases ha : st.is_active_instance = true
  · exact ⟨[], by simp [Main.sync_data, ha, statsUpdate]⟩
  · have ha' : st.is_active_instance = false := by simpa using ha
    cases body with
    | none => exact ⟨[], by simp [Main.sync_data, ha', statsUpdate]⟩
    | some data =>
      rw [sync_data_standby st data ha']
      cases hcc : data.custom_commands with
      | none =>
        dsimp only
        cases hsf : data.stats with
        | absent => exact ⟨[], rfl⟩
        | valid s => exact ⟨s, rfl⟩
        | malformed applied => exact ⟨applied, rfl⟩
      | some entries =>
        dsimp only
        cases hm : Main.mergeCommands st entries with
        | mk bot1 ok =>
          have hfr := Main.mergeCommands_frame entries st
          rw [hm] at hfr
          have hst : bot1.stats = st.stats := hfr.2.2.2.2.2.2.1
          cases ok
          · exact ⟨[], hst⟩
          · dsimp only
            cases hsf : data.stats with
            | absent => exact ⟨[], hst⟩
            | valid s => exact ⟨s, by simp [Main.applyStats, hst]⟩
            | malformed applied => exact ⟨applied, by simp [Main.applyStats, hst]⟩

theorem sync_data_cc (st : Main.BotState) (data : Main.SyncPayload)
    (entries : List (String × Main.CmdData))
    (ha : st.is_active_instance = false)
    (hcc : data.custom_commands = some entries) :
    (Main.sync_data st (some data)).1.custom_commands =
      (Main.mergeCommands st entries).1.custom_commands ∧
    (Main.sync_data st (some data)).1.registered_commands =
      (Main.mergeCommands st entries).1.registered_commands := by
  rw [sync_data_standby st data ha, hcc]
  dsimp only
  cases hm : Main.mergeCommands st entries with
  | mk bot1 ok =>
    cases ok
    · dsimp only
      exact ⟨rfl, rfl⟩
    · dsimp only
      cases hsf : data.stats <;> simp [Main.applyStats]

/-- C3 (amended): a `/sync` call that ends in the error status leaves
`moderation_actions`, `warnings` and `deopped_users` unchanged, but the
error outcome is not atomic: custom-command entries processed before the
failure remain inserted (the registry is only extended, pre-existing
entries untouched), and stats pairs inserted by `dict.update` before it
raised remain applied (stats is always some dict-update of the original
counters, never anything else). -/
theorem claim_C3 (st : Main.BotState) (body : Option Main.SyncPayload)
    (_h : (Main.sync_data st body).2 = Main.SyncStatus.error) :
    (Main.sync_data st body).1.moderation_actions = st.moderation_actions ∧
    (Main.sync_data st body).1.warnings = st.warnings ∧
    (Main.sync_data st body).1.deopped_users = st.deopped_users ∧
    (∃ u, (Main.sync_data st body).1.stats = statsUpdate st.stats u) ∧
    ∃ extra, (Main.sync_data st body).1.custom_commands = st.custom_commands ++ extra := by
  obtain ⟨f1, f2, f3, f4⟩ := sync_data_frame st body
  exact ⟨f1, f2, f3, sync_data_stats_update st body, f4⟩

def c3good : Main.CmdData :=
  { name := some "a", description := some "d", response := some "r"
    created_by := some 1, created_at := some 0, usage_count := none }

def c3bad : Main.CmdData :=
  { name := none, description := none, response := none
    created_by := none, created_at := none, usage_count := none }

def c3st : Main.BotState := Main.initState Main.BotRole.SECONDARY

def c3p : Main.SyncPayload :=
  { actions := none, warnings := none, deopped := none
    custom_commands := some [("a", c3good), ("b", c3bad)]
    stats := Main.StatsField.absent, timestamp := none }

def c3p2 : Main.SyncPayload :=
  { actions := none, warnings := none, deopped := none
    custom_commands := some [("a", c3good)]
    stats := Main.StatsField.malformed [("bans", 99)], timestamp := none }

/-- C3 counterexample, refuting atomicity on two stores.  First: a STANDBY
instance receiving a payload whose first custom-command entry is well-formed
and whose second is malformed returns the error status with the first entry
already inserted.  Second: a payload whose stats value is a pair-sequence
with one valid leading pair before the element that makes `dict.update`
raise returns the error status with that pair already written into stats. -/
theorem claim_C3_counterexample :
    ((Main.sync_data c3st (some c3p)).2 = Main.SyncStatus.error ∧
      (Main.sync_data c3st (some c3p)).1.custom_commands ≠ c3st.custom_commands) ∧
    ((Main.sync_data c3st (some c3p2)).2 = Main.SyncStatus.error ∧
      (Main.sync_data c3st (some c3p2)).1.stats ≠ c3st.stats) := by
  decide

/-- C3 witness: on the concrete malformed payload whose stats value raises
part-way, the error outcome leaves the action log unchanged, the stats a
dict-update of the original counters, and the registry only extended. -/
theorem claim_C3_witness :
    (Main.sync_data c3st (some c3p2)).1.moderation_actions = c3st.moderation_actions ∧
    (∃ u, (Main.sync_data c3st (some c3p2)).1.stats = statsUpdate c3st.stats u) ∧
    ∃ extra, (Main.sync_data c3st (some c3p2)).1.custom_commands =
      c3st.custom_commands ++ extra := by
  have h := claim_C3 c3st (some c3p2) (by decide)
  exact ⟨h.1, h.2.2.2.1, h.2.2.2.2⟩

/-- C5: on a STANDBY instance, for a well-formed `/sync` payload (every
custom-command entry buildable, names distinct as JSON object keys are):
each incoming custom command whose name is absent from the local registry is
inserted under that name and its command registered live, and each incoming
command whose name is already present leaves the existing local definition
unchanged (first-writer-wins per name). -/
theorem claim_C5 (st : Main.BotState) (data : Main.SyncPayload)
    (entries : List (String × Main.CmdData))
    (ha : st.is_active_instance = false)
    (hcc : data.custom_commands = some entries)
    (hwf : ∀ q ∈ entries, (Main.buildCmd q.2).isSome = true)
    (hnd : (entries.map Prod.fst).Nodup) :
    (∀ k d, (k, d) ∈ entries → lookup st.custom_commands k = none →
      ∃ c, Main.buildCmd d = some c ∧
        lookup (Main.sync_data st (some data)).1.custom_commands k = some c ∧
        c.name ∈ (Main.sync_data st (some data)).1.registered_commands) ∧
    (∀ k c0, lookup st.custom_commands k = some c0 →
      lookup (Main.sync_data st (some data)).1.custom_commands k = some c0) := by
  obtain ⟨hc1, hc2⟩ := sync_data_cc st data entries ha hcc
  constructor
  · intro k d hmem habs
    have hbs := hwf (k, d) hmem
    cases hb : Main.buildCmd d with
    | none => rw [hb] at hbs; simp at hbs
    | some c =>
      obtain ⟨hl, hr⟩ := Main.mergeCommands_insert entries st k d c hmem hwf hnd habs hb
      exact ⟨c, rfl, by rw [hc1]; exact hl, by rw [hc2]; exact hr⟩
  · intro k c0 h0
    rw [hc1]
    exact Main.mergeCommands_lookup_some entries st k c0 h0

def c5d : Main.CmdData :=
  { name := some "foo", description := some "d", response := some "hi"
    created_by := some 9, created_at := some 3, usage_count := some 2 }

def c5st : Main.BotState := Main.initState Main.BotRole.SECONDARY

def c5p : Main.SyncPayload :=
  { actions := none, warnings := none, deopped := none
    custom_commands := some [("foo", c5d)]
    stats := Main.StatsField.absent, timestamp := none }

/-- C5 witness: posting a concrete custom command named "foo" to a fresh
STANDBY instance inserts it and registers it as a live command. -/
theorem claim_C5_witness :
    ∃ c, Main.buildCmd c5d = some c ∧
      lookup (Main.sync_data c5st (some c5p)).1.custom_commands "foo" = some c ∧
      c.name ∈ (Main.sync_data c5st (some c5p)).1.registered_commands :=
  (claim_C5 c5st c5p [("foo", c5d)] (by decide) rfl (by decide) (by decide)).1
    "foo" c5d (by decide) (by decide)

/-- C10: for every `/sync` payload — well-formed or not — received while
STANDBY, the handler never modifies `moderation_actions`, `warnings` or
`deopped_users`; the action history, warning history and deopped-user map
carried in the payload are discarded on ingest, even though the snapshot builder of the sender includes all three in every snapshot. -/
theorem claim_C10 (st : Main.BotState) (body : Option Main.SyncPayload) (now : Int)
    (_ha : st.is_active_instance = false) :
    (Main.sync_data st body).1.moderation_actions = st.moderation_actions ∧
    (Main.sync_data st body).1.warnings = st.warnings ∧
    (Main.sync_data st body).1.deopped_users = st.deopped_users ∧
    (Main.build_sync_payload st now).actions.isSome = true ∧
    (Main.build_sync_payload st now).warnings.isSome = true ∧
    (Main.build_sync_payload st now).deopped.isSome = true := by
  obtain ⟨f1, f2, f3, _⟩ := sync_data_frame st body
  exact ⟨f1, f2, f3, rfl, rfl, rfl⟩

def c10st : Main.BotState := Main.initState Main.BotRole.SECONDARY

/-- C10 witness: a concrete STANDBY instance fed an unparseable body keeps
its action, warning and deopped stores, and its outbound snapshot carries
all three histories. -/
theorem claim_C10_witness :
    (Main.sync_data c10st none).1.moderation_actions = c10st.moderation_actions ∧
    (Main.sync_data c10st none).1.warnings = c10st.warnings ∧
    (Main.sync_data c10st none).1.deopped_users = c10st.deopped_users ∧
    (Main.build_sync_payload c10st 0).actions.isSome = true ∧
    (Main.build_sync_payload c10st 0).warnings.isSome = true ∧
    (Main.build_sync_payload c10st 0).deopped.isSome = true :=
  claim_C10 c10st none 0 (by decide)

/-- C4 (amended): each `health_loop` iteration performs, in program order,
the takeover decision (promoting via `become_active` when the condition
holds), then the outbound snapshot push, then the peer health check — so the
takeover decision does happen before the outbound push, but the peer health
check comes last, not first.  The instance ends active iff it was active
already or the takeover condition held. -/
theorem claim_C4 (bot : Main.BotState) (m : Main.HealthMonitor) (now : Int)
    (resp : Main.PeerResponse) :
    (Main.health_loop bot m now resp).2.2 =
      [Main.HStep.takeoverDecision, Main.HStep.syncPush, Main.HStep.peerHealthCheck] ∧
    ((Main.health_loop bot m now resp).1.is_active_instance = true ↔
      (bot.is_active_instance = true ∨
        (bot.role = Main.BotRole.SECONDARY ∧ Main.should_takeover m bot now = true))) := by
  constructor
  · rfl
  · show (if (bot.role == Main.BotRole.SECONDARY && Main.should_takeover m bot now) = true
        then Main.become_active bot else bot).is_active_instance = true ↔ _
    by_cases hc : (bot.role == Main.BotRole.SECONDARY && Main.should_takeover m bot now) = true
    · rw [if_pos hc]
      simp only [Bool.and_eq_true, beq_iff_eq] at hc
      simp [Main.become_active_flag, hc]
    · rw [if_neg hc]
      simp only [Bool.and_eq_true, beq_iff_eq, not_and] at hc
      constructor
      · exact fun h => Or.inl h
      · rintro (h | ⟨h1, h2⟩)
        · exact h
        · exact absurd h2 (by simp [hc h1])

def c4bot : Main.BotState := Main.initState Main.BotRole.PRIMARY

def c4m : Main.HealthMonitor :=
  { peer_url := none, session := false, last_peer_heartbeat := 0 }

/-- C4 counterexample: on a concrete instance, the executed step order of
one `health_loop` iteration is not "check peer health, then decide takeover,
then push": the health check is not the first step. -/
theorem claim_C4_counterexample :
    (Main.health_loop c4bot c4m 0 Main.PeerResponse.transportError).2.2 ≠
      [Main.HStep.peerHealthCheck, Main.HStep.takeoverDecision, Main.HStep.syncPush] := by
  decide

/-- C6: `check_peer_health` is a total function — failure is absorbed, never
raised.  Whenever the response is not a 200 answer with a parseable
`last_heartbeat` timestamp it returns `false` for the round with the monitor
(in particular `last_peer_heartbeat`) unchanged, and `last_peer_heartbeat`
can only change on such a verified success. -/
theorem claim_C6 (m : Main.HealthMonitor) (resp : Main.PeerResponse) :
    (Main.respGood resp = false → Main.check_peer_health m resp = (m, false)) ∧
    ((Main.check_peer_health m resp).1.last_peer_heartbeat ≠ m.last_peer_heartbeat →
      Main.respGood resp = true) := by
  constructor
  · exact Main.check_peer_health_not_good m resp
  · intro h
    by_contra hng
    have hb : Main.respGood resp = false := by
      cases hrg : Main.respGood resp
      · rfl
      · exact absurd hrg hng
    rw [Main.check_peer_health_not_good m resp hb] at h
    exact h rfl

def c6m : Main.HealthMonitor :=
  { peer_url := some "peer", session := true, last_peer_heartbeat := 0 }

def c6resp : Main.PeerResponse :=
  Main.PeerResponse.httpResponse 200
    (some { last_heartbeat := Main.LHField.parsed 999, is_active := some true })

/-- C6 witness: a transport error leaves a concrete monitor untouched, and a
concrete 200 response with a parseable heartbeat (which does move
`last_peer_heartbeat`) is recognised as a verified success. -/
theorem claim_C6_witness :
    Main.check_peer_health c6m Main.PeerResponse.transportError = (c6m, false) ∧
    Main.respGood c6resp = true :=
  ⟨(claim_C6 c6m Main.PeerResponse.transportError).1 (by decide),
   (claim_C6 c6m c6resp).2 (by decide)⟩

/-- C7: for every finite sequence of `become_active` / `become_standby`
calls, the activity flag afterwards equals the activity requested by the
last call, and a call requesting the activity already in effect is a strict
no-op — the state (including the presence-update record) is returned
unchanged, so a side effect occurs only on an actual transition. -/
theorem claim_C7 (bot : Main.BotState) (calls : List Main.RCall) (c : Main.RCall)
    (h : calls.getLast? = some c) :
    (Main.runCalls bot calls).is_active_instance = Main.reqActive c ∧
    ∀ (b : Main.BotState) (c2 : Main.RCall),
      b.is_active_instance = Main.reqActive c2 → Main.applyCall b c2 = b := by
  constructor
  · induction calls generalizing bot with
    | nil => simp at h
    | cons a rest ih =>
      cases rest with
      | nil =>
        simp at h
        subst h
        exact Main.applyCall_flag bot a
      | cons b2 t =>
        rw [List.getLast?_cons_cons] at h
        exact ih (Main.applyCall bot a) h
  · intro b c2 hflag
    cases c2
    · show Main.become_active b = b
      rw [Main.become_active, if_pos (show b.is_active_instance = true from hflag)]
    · show Main.become_standby b = b
      simp [Main.reqActive] at hflag
      rw [Main.become_standby, if_pos (by simp [hflag])]

/-- C8: after every `log_action` the length of the moderation log never exceeds
the configured ceiling (500 in `main.py`, 10000 in `bot.py`), and whenever
the append makes it exceed the ceiling, the retained entries are exactly the
most recent ones up to the configured retained size (250 resp. 5000), oldest
entries dropped first with order preserved. -/
theorem claim_C8 (mb : Main.BotState) (a : Main.ModerationAction) (t : Int)
    (pb : BotPy.State) (a2 : BotPy.ModerationAction) (t2 : Int) :
    (Main.log_action mb a t).moderation_actions.length ≤ 500 ∧
    (mb.moderation_actions.length + 1 > 500 →
      (Main.log_action mb a t).moderation_actions =
        (mb.moderation_actions ++ [{ a with timestamp := t }]).drop
          (mb.moderation_actions.length + 1 - 250)) ∧
    (BotPy.log_action pb a2 t2).moderation_actions.length ≤ 10000 ∧
    (pb.moderation_actions.length + 1 > 10000 →
      (BotPy.log_action pb a2 t2).moderation_actions =
        (pb.moderation_actions ++ [{ a2 with timestamp := t2 }]).drop
          (pb.moderation_actions.length + 1 - 5000)) := by
  refine ⟨?_, ?_, ?_, ?_⟩
  · simp only [Main.log_action]
    split
    all_goals simp_all
    all_goals omega
  · intro hgt
    simp only [Main.log_action]
    split
    next h => simp [List.length_append]
    next h => exfalso; simp at h; omega
  · simp only [BotPy.log_action]
    split
    all_goals simp_all
    all_goals omega
  · intro hgt
    simp only [BotPy.log_action]
    split
    next h => simp [List.length_append]
    next h => exfalso; simp at h; omega

def c8act : Main.ModerationAction :=
  { user_id := 1, moderator_id := 2, action := ActionType.BAN, reason := "r"
    timestamp := 0 }

def c8mb : Main.BotState :=
  { Main.initState Main.BotRole.PRIMARY with
      moderation_actions := List.replicate 500 c8act }

def c8pact : BotPy.ModerationAction :=
  { user_id := 1, moderator_id := 2, action := ActionType.BAN, reason := "r"
    timestamp := 0 }

def c8pb : BotPy.State :=
  { BotPy.initState 0 with moderation_actions := List.replicate 10000 c8pact }

/-- C8 witness: appending to a log already at the ceiling (500 resp. 10000
entries) retains exactly the most recent 250 resp. 5000 entries. -/
theorem claim_C8_witness :
    (Main.log_action c8mb c8act 5).moderation_actions =
      (c8mb.moderation_actions ++ [{ c8act with timestamp := 5 }]).drop
        (c8mb.moderation_actions.length + 1 - 250) ∧
    (BotPy.log_action c8pb c8pact 7).moderation_actions =
      (c8pb.moderation_actions ++ [{ c8pact with timestamp := 7 }]).drop
        (c8pb.moderation_actions.length + 1 - 5000) := by
  have h := claim_C8 c8mb c8act 5 c8pb c8pact 7
  refine ⟨h.2.1 ?_, h.2.2.2 ?_⟩
  · show (List.replicate 500 c8act).length + 1 > 500
    rw [List.length_replicate]
    omega
  · show (List.replicate 10000 c8pact).length + 1 > 10000
    rw [List.length_replicate]
    omega

theorem addMany_ids (l : List (Int × Int × String × Int)) (bot : Main.BotState) :
    (Main.addMany bot l).2 = List.range' bot.next_warning_id l.length := by
  induction l generalizing bot with
  | nil => rfl
  | cons p rest ih =>
    obtain ⟨u, m, r, t⟩ := p
    rw [Main.addMany]
    dsimp only
    rw [ih]
    simp [Main.add_warning, List.range', List.length_cons]

/-- C9: from a freshly initialized store, the ids issued by any sequence of
`add_warning` calls are exactly 1, 2, …, n — strictly increasing, first id
1 — and after the `clear_memory` bulk-clear the next issued id is again 1. -/
theorem claim_C9 (role : Main.BotRole) (l : List (Int × Int × String × Int))
    (st : BotPy.State) (u mo : Int) (r : String) (t : Int) :
    (Main.addMany (Main.initState role) l).2 = List.range' 1 l.length ∧
    ((Main.addMany (Main.initState role) l).2).Pairwise (· < ·) ∧
    ((Main.add_warning (Main.initState role) u mo r t).2).id = 1 ∧
    ((BotPy.add_warning (BotPy.clear_memory st) u mo r t).2).id = 1 := by
  refine ⟨addMany_ids l (Main.initState role), ?_, rfl, rfl⟩
  rw [addMany_ids]
  exact List.pairwise_lt_range' _ _

def c7b : Main.BotState := Main.initState Main.BotRole.PRIMARY

/-- C7 witness: a concrete two-call sequence ends with the activity requested by the last call, and `become_active` on an already-active instance is the
identity. -/
theorem claim_C7_witness :
    (Main.runCalls c7b [Main.RCall.active, Main.RCall.standby]).is_active_instance =
      Main.reqActive Main.RCall.standby ∧
    Main.applyCall c7b Main.RCall.active = c7b := by
  have h := claim_C7 c7b [Main.RCall.active, Main.RCall.standby] Main.RCall.standby rfl
  exact ⟨h.1, h.2 c7b Main.RCall.active (by decide)⟩

end Banbot
